import Mathlib

/-!
Verification development for the clinic-management REST API's
authentication and role-authorization pipeline: password hashing,
token issuance/verification, identity resolution, the role gate, and
the account-lifecycle handlers (register, login, administrative delete,
credential-update hooks). Definitions are shallow embeddings of the
JavaScript source; the external bcryptjs and jsonwebtoken libraries are
modelled from the specification's component contracts.
-/

namespace HealthcareAuth

/-! ## Password hasher (bcryptjs) -/

/-- Modelled from the spec: the stored form produced by the external
bcryptjs library's `hash` — a salted one-way transform whose output
embeds the salt used, so that `compare` can recompute.  The digest is
idealized as an injective record of the salt and plaintext. -/
structure BcryptStored where
  salt : Nat
  digest : Nat × String
deriving DecidableEq, Repr

/-- Modelled from the spec: `bcrypt.hash(plaintext, salt)` — every call
draws a fresh random salt; the salt is made an explicit argument so the
randomness is an input of the model. -/
def bcryptHash (plaintext : String) (salt : Nat) : BcryptStored :=
  ⟨salt, (salt, plaintext)⟩

/-- Modelled from the spec: `bcrypt.compare(plaintext, stored)` —
recomputes the digest using the salt embedded in `stored` and compares
exactly; true only on exact match. -/
def bcryptCompare (plaintext : String) (stored : BcryptStored) : Bool :=
  stored.digest == (stored.salt, plaintext)

/-! ## Data model: the User record (src/models/user.js) -/

/-- A persisted user row: id, username, email, bcrypt-hashed password,
role string (the model's ENUM admits "admin", "patient", "doctor"). -/
structure User where
  id : Nat
  username : String
  email : String
  password : BcryptStored
  role : String
deriving DecidableEq, Repr

/-- `User.validatePassword` instance method: compares a plaintext
password with the stored hash via bcrypt. -/
def validatePassword (u : User) (password : String) : Bool :=
  bcryptCompare password u.password

/-! ## Token service (jsonwebtoken), modelled from the spec contract -/

/-- The JWT claims written by `generateToken`: userId, email, role,
plus issued-at and expiry timestamps (seconds). -/
structure JwtPayload where
  userId : Nat
  email : String
  role : String
  iat : Nat
  exp : Nat
deriving DecidableEq, Repr

/-- Modelled from the spec: a signed token as produced by `jwt.sign` —
payload plus a signature over it under the server secret.  The
signature is idealized as the injective pair (secret, payload). -/
structure SignedToken where
  payload : JwtPayload
  sig : String × JwtPayload
deriving DecidableEq, Repr

/-- The two error classes thrown by `jwt.verify` that the middleware
discriminates by name. -/
inductive JwtError
| jsonWebTokenError
| tokenExpiredError
deriving DecidableEq, Repr

/-- The `name` property of a jsonwebtoken error object. -/
def JwtError.name : JwtError → String
| .jsonWebTokenError => "JsonWebTokenError"
| .tokenExpiredError => "TokenExpiredError"

/-- Modelled from the spec: `jwt.sign(payload, secret)`. -/
def jwtSign (p : JwtPayload) (secret : String) : SignedToken :=
  ⟨p, (secret, p)⟩

/-- Modelled from the spec: `jwt.verify(token, secret)` — a token that
does not parse at all is `none`; a parsed token is checked for
signature validity first, then expiry against the current time.
A wrong signature or unparseable token throws `JsonWebTokenError`;
a well-signed token past its expiry throws `TokenExpiredError`. -/
def jwtVerify (token : Option SignedToken) (secret : String) (now : Nat) :
    Except JwtError JwtPayload :=
  match token with
  | none => .error .jsonWebTokenError
  | some tok =>
    if tok.sig ≠ (secret, tok.payload) then .error .jsonWebTokenError
    else if tok.payload.exp ≤ now then .error .tokenExpiredError
    else .ok tok.payload

/-- `generateToken` (src/controllers/authController.js): encodes the
user's id, email and role, signs with the server secret, expiry set
`expiresIn` seconds from now (default 7 days). -/
def generateToken (u : User) (secret : String) (now expiresIn : Nat) :
    SignedToken :=
  jwtSign ⟨u.id, u.email, u.role, now, now + expiresIn⟩ secret

/-- The default token lifetime: "7d". -/
def jwtExpiresInDefault : Nat := 7 * 24 * 60 * 60

/-! ## HTTP response shape -/

/-- The JSON error/success envelope the handlers send:
status code, success flag, message, optional errors array. -/
structure Response where
  status : Nat
  success : Bool
  message : String
  errors : List String
deriving DecidableEq, Repr

/-! ## Identity store primitives (Sequelize query calls) -/

/-- `User.findByPk(id)` over the store, modelled as a list of rows. -/
def findByPk (store : List User) (id : Nat) : Option User :=
  store.find? (fun u => u.id == id)

/-- `User.findOne({ where: { email } })`. -/
def findOneByEmail (store : List User) (email : String) : Option User :=
  store.find? (fun u => u.email == email)

/-! ## Authentication middleware (src/middleware/auth.js) -/

/-- Outcome of a middleware: either it responds and the chain stops, or
it calls `next()` after attaching the resolved user to the request. -/
inductive AuthResult
| respond (r : Response)
| proceed (user : User)
deriving DecidableEq, Repr

/-- `authenticateToken`: the raw bearer token from the Authorization
header.  `none` = no token supplied; `some none` = a token string that
does not parse as a JWT; `some (some tok)` = a parsed token structure.
Verifies the token, then resolves the live identity with
`User.findByPk` on the decoded userId; the error branches discriminate
the thrown jsonwebtoken error by its `name`. -/
def authenticateToken (store : List User) (token : Option (Option SignedToken))
    (secret : String) (now : Nat) : AuthResult :=
  match token with
  | none => .respond ⟨401, false, "Access token required", []⟩
  | some raw =>
    match jwtVerify raw secret now with
    | .error e =>
      if e.name == "JsonWebTokenError" then
        .respond ⟨401, false, "Invalid token", []⟩
      else if e.name == "TokenExpiredError" then
        .respond ⟨401, false, "Token expired", []⟩
      else
        .respond ⟨500, false, "Authentication error", []⟩
    | .ok decoded =>
      match findByPk store decoded.userId with
      | none => .respond ⟨401, false, "Invalid token - user not found", []⟩
      | some user => .proceed user

/-! ## Role gate (src/middleware/rbac.js) -/

/-- Outcome of the role gate: respond (401/403/500) or pass through. -/
inductive GateResult
| respond (r : Response)
| next
deriving DecidableEq, Repr

/-- The diagnostic message a denial carries: the allowed roles joined
with " or ", as in the template string of rbac.js. -/
def deniedMessage (allowedRoles : List String) : String :=
  "Access denied. Required role: " ++ String.intercalate " or " allowedRoles

/-- `requireRole(allowedRoles)`: 401 when no user is attached to the
request, 403 naming the allowed roles when the resolved user's role is
not in the allowed set, otherwise `next()`. -/
def requireRole (allowedRoles : List String) (reqUser : Option User) :
    GateResult :=
  match reqUser with
  | none => .respond ⟨401, false, "Authentication required", []⟩
  | some user =>
    if ¬ allowedRoles.contains user.role then
      .respond ⟨403, false, deniedMessage allowedRoles, []⟩
    else
      .next

/-- The admin-routes pipeline: `router.use(authenticateToken)` then
`router.use(requireRole(allowedRoles))`; the handler runs with the
resolved user exactly when both middlewares pass. -/
def protectedRequest (store : List User) (token : Option (Option SignedToken))
    (secret : String) (now : Nat) (allowedRoles : List String) :
    Sum Response User :=
  match authenticateToken store token secret now with
  | .respond r => .inl r
  | .proceed user =>
    match requireRole allowedRoles (some user) with
    | .respond r => .inl r
    | .next => .inr user

/-! ## Administrative delete (src/controllers/adminController.js) -/

/-- `deleteUser`: `userId` is the parsed route parameter; rejects a
self-delete before the findByPk lookup, then 404 when the target does
not exist, otherwise destroys the row. -/
def deleteUser (store : List User) (userId : Nat) (reqUser : User) :
    Response × List User :=
  if userId = reqUser.id then
    (⟨400, false, "Cannot delete your own account", []⟩, store)
  else
    match findByPk store userId with
    | none => (⟨404, false, "User not found", []⟩, store)
    | some u =>
      (⟨200, true, "User deleted successfully", []⟩,
       store.filter (fun v => v.id != u.id))

/-! ## Model validations and create hook (src/models/user.js) -/

/-- JavaScript truthiness of an optional string field of the request
body: absent and empty-string are both falsy. -/
def isTruthy : Option String → Bool
| none => false
| some s => s != ""

/-- The username length validator: 3 to 50 characters. -/
def usernameLenOk (s : String) : Bool :=
  3 ≤ s.length && s.length ≤ 50

/-- The password length validator: 6 to 100 characters. -/
def passwordLenOk (s : String) : Bool :=
  6 ≤ s.length && s.length ≤ 100

/-- The `isEmail` format validator, abstracted from the external
validator library to a minimal executable check; the claims under test
only exercise well-formed addresses. -/
def isEmailFormat (s : String) : Bool :=
  s.data.any (fun c => c.toNat == 64)

/-- The role ENUM / isIn validator: admin, patient or doctor. -/
def validRole (r : String) : Bool :=
  r == "admin" || r == "patient" || r == "doctor"

/-- The validation error messages Sequelize would collect for a create,
in attribute order. -/
def validationMessages (username email password role : String) :
    List String :=
  (if usernameLenOk username then []
   else ["Username must be between 3 and 50 characters"]) ++
  (if isEmailFormat email then []
   else ["Must be a valid email address"]) ++
  (if passwordLenOk password then []
   else ["Password must be at least 6 characters long"]) ++
  (if validRole role then []
   else ["Role must be admin, patient, or doctor"])

/-- Outcome of `User.create`: the created row and updated store, a
validation failure (SequelizeValidationError), or a uniqueness
violation (SequelizeUniqueConstraintError) naming the offending path. -/
inductive CreateResult
| created (u : User) (newStore : List User)
| validationFailed (msgs : List String)
| uniqueViolation (field : String)
deriving DecidableEq, Repr

/-- `User.create`: runs the model validators, then the unique
constraints on username and email, then the `beforeCreate` hook hashes
the password (fresh salt) before the row is inserted. -/
def userCreate (store : List User) (username email password role : String)
    (newId salt : Nat) : CreateResult :=
  let msgs := validationMessages username email password role
  if msgs ≠ [] then .validationFailed msgs
  else if store.any (fun u => u.username == username) then
    .uniqueViolation "username"
  else if store.any (fun u => u.email == email) then
    .uniqueViolation "email"
  else
    let u : User := ⟨newId, username, email, bcryptHash password salt, role⟩
    .created u (store ++ [u])

/-- The `beforeUpdate` hook: `assigned` is the plaintext newly written
to the password field when `user.changed("password")` is true, `none`
when the field is untouched.  Returns the password column as persisted
and whether the hasher ran. -/
def beforeUpdate (current : BcryptStored) (assigned : Option String)
    (salt : Nat) : BcryptStored × Bool :=
  match assigned with
  | some p => (bcryptHash p salt, true)
  | none => (current, false)

/-! ## Account lifecycle (src/controllers/authController.js) -/

/-- `role || "patient"`: a falsy role field (absent or empty) defaults
to "patient". -/
def roleOrDefault : Option String → String
| none => "patient"
| some r => if r = "" then "patient" else r

/-- Everything `register` produces: the response envelope, the issued
token and created row (on success), the store after the call, and
whether `User.create` was invoked at all. -/
structure RegisterOutcome where
  resp : Response
  token : Option SignedToken
  userCreated : Option User
  store : List User
  createInvoked : Bool
deriving DecidableEq, Repr

/-- `register`: validates presence of username/email/password before
touching the store; then `User.create` (hashing via the model hook),
mapping a validation error to 400 "Validation failed", a uniqueness
violation to 400 "(field) already exists", and success to 201 with an
immediately issued token. -/
def register (store : List User) (username email password role : Option String)
    (secret : String) (now expiresIn newId salt : Nat) : RegisterOutcome :=
  if ¬ (isTruthy username && isTruthy email && isTruthy password) then
    ⟨⟨400, false, "Username, email, and password are required", []⟩,
     none, none, store, false⟩
  else
    match userCreate store (username.getD "") (email.getD "")
        (password.getD "") (roleOrDefault role) newId salt with
    | .created u s2 =>
      ⟨⟨201, true, "User registered successfully", []⟩,
       some (generateToken u secret now expiresIn), some u, s2, true⟩
    | .validationFailed msgs =>
      ⟨⟨400, false, "Validation failed", msgs⟩, none, none, store, true⟩
    | .uniqueViolation field =>
      ⟨⟨400, false, field ++ " already exists", []⟩, none, none, store, true⟩

/-- What `login` sends back: the envelope plus the token on success. -/
structure LoginResponse where
  status : Nat
  success : Bool
  message : String
  token : Option SignedToken
deriving DecidableEq, Repr

/-- `login`: 400 when email or password is falsy; looks up the user by
email; a missing user and a failed `validatePassword` both answer 401
with the same generic message; on success issues a token. -/
def login (store : List User) (email password : Option String)
    (secret : String) (now expiresIn : Nat) : LoginResponse :=
  if ¬ (isTruthy email && isTruthy password) then
    ⟨400, false, "Email and password are required", none⟩
  else
    match findOneByEmail store (email.getD "") with
    | none => ⟨401, false, "Invalid email or password", none⟩
    | some user =>
      if ¬ validatePassword user (password.getD "") then
        ⟨401, false, "Invalid email or password", none⟩
      else
        ⟨200, true, "Login successful",
         some (generateToken user secret now expiresIn)⟩

/-! ## Claim theorems -/

/-- C1 (counterexample): an admin (id 1) deleting their own id is
answered with HTTP status 400, not the claimed 403: the self-deletion
guard responds "Cannot delete your own account" as a 400. -/
theorem c1_counterexample :
    (deleteUser [] 1 ⟨1, "admin", "admin@example.com",
        bcryptHash "password123" 0, "admin"⟩).1.status = 400 ∧
    (deleteUser [] 1 ⟨1, "admin", "admin@example.com",
        bcryptHash "password123" 0, "admin"⟩).1.status ≠ 403 := by
  decide

/-- C1 (amended): whenever the target identifier equals the acting
admin's own identifier, `deleteUser` rejects with HTTP 400 and message
"Cannot delete your own account", leaving the store untouched; the
guard fires for every store, in particular before the not-found check
(the conclusion holds even when the identifier is absent from the
store). -/
theorem c1_self_delete_guard (store : List User) (u : User) :
    deleteUser store u.id u
      = (⟨400, false, "Cannot delete your own account", []⟩, store) := by
  simp [deleteUser]

/-- C4: bcrypt round-trip — a password verifies against its own hash;
two hashes of the same password under distinct salts are distinct
stored values, yet both verify against the password; a different
password never verifies against the hash. -/
theorem c4_hash_verify_roundtrip (p1 p2 : String) (s1 s2 : Nat)
    (hp : p1 ≠ p2) (hs : s1 ≠ s2) :
    bcryptCompare p1 (bcryptHash p1 s1) = true ∧
    bcryptHash p1 s1 ≠ bcryptHash p1 s2 ∧
    bcryptCompare p1 (bcryptHash p1 s2) = true ∧
    bcryptCompare p1 (bcryptHash p2 s1) = false := by
  refine ⟨by simp [bcryptCompare, bcryptHash], ?_,
    by simp [bcryptCompare, bcryptHash], ?_⟩
  · intro h
    exact hs (congrArg BcryptStored.salt h)
  · simp [bcryptCompare, bcryptHash]
    intro h
    exact absurd h.symm hp

/-- C4 witness at concrete inputs. -/
theorem c4_witness :
    bcryptCompare "secret1" (bcryptHash "secret1" 0) = true ∧
    bcryptHash "secret1" 0 ≠ bcryptHash "secret1" 1 ∧
    bcryptCompare "secret1" (bcryptHash "secret1" 1) = true ∧
    bcryptCompare "secret1" (bcryptHash "secret2" 0) = false :=
  c4_hash_verify_roundtrip "secret1" "secret2" 0 1
    (by decide) (by decide)

/-- C9: the `beforeUpdate` hook hashes exactly when the password field
changed — the hasher-ran flag equals `assigned.isSome`; a changed write
persists the fresh hash of the new value, which then validates against
it, while an unchanged write keeps the stored hash byte-identical. -/
theorem c9_rehash_iff_changed (current : BcryptStored) (salt : Nat)
    (p : String) (a : Option String) :
    (beforeUpdate current a salt).2 = a.isSome ∧
    beforeUpdate current (some p) salt = (bcryptHash p salt, true) ∧
    bcryptCompare p (beforeUpdate current (some p) salt).1 = true ∧
    beforeUpdate current none salt = (current, false) := by
  refine ⟨?_, rfl, by simp [beforeUpdate, bcryptCompare, bcryptHash], rfl⟩
  cases a <;> rfl

/-- C7: the role gate is a pure membership test — an attached user
passes iff their role is in the allowed set; a denial is the 403
response carrying the allowed roles joined in its message; in
particular role "patient" is denied against allowed set admin-only and
allowed against admin-or-patient. -/
theorem c7_authorize_membership (allowedRoles : List String) (u : User) :
    (requireRole allowedRoles (some u) = .next
       ↔ allowedRoles.contains u.role = true) ∧
    (allowedRoles.contains u.role = false →
       requireRole allowedRoles (some u)
         = .respond ⟨403, false, deniedMessage allowedRoles, []⟩) ∧
    (u.role = "patient" →
       requireRole ["admin"] (some u)
           = .respond ⟨403, false, deniedMessage ["admin"], []⟩ ∧
       requireRole ["admin", "patient"] (some u) = .next) := by
  refine ⟨?_, ?_, ?_⟩
  · constructor
    · intro hnext
      by_contra hc
      simp at hc
      simp [requireRole, hc] at hnext
    · intro h
      simp at h
      simp [requireRole, h]
  · intro h
    simp at h
    simp [requireRole, h]
  · intro h
    constructor <;> simp [requireRole, h, deniedMessage, List.contains]

/-- C7 witness: a concrete patient user against admin-only and
admin-or-patient. -/
theorem c7_witness :
    requireRole ["admin"]
        (some ⟨2, "pat", "pat@x.com", bcryptHash "secret1" 0, "patient"⟩)
      = .respond ⟨403, false, deniedMessage ["admin"], []⟩ ∧
    requireRole ["admin", "patient"]
        (some ⟨2, "pat", "pat@x.com", bcryptHash "secret1" 0, "patient"⟩)
      = .next :=
  (c7_authorize_membership ["admin"]
    ⟨2, "pat", "pat@x.com", bcryptHash "secret1" 0, "patient"⟩).2.2 rfl

/-- C3: a well-signed token past its expiry is answered 401 "Token
expired" (the Expired reason), never the Malformed answer; an
unparseable token, and a token whose signature is wrong, are answered
401 "Invalid token" (the Malformed reason). -/
theorem c3_expired_vs_malformed (store : List User) (secret : String)
    (now : Nat) (tok : SignedToken)
    (hsig : tok.sig = (secret, tok.payload))
    (hexp : tok.payload.exp ≤ now) :
    authenticateToken store (some (some tok)) secret now
      = .respond ⟨401, false, "Token expired", []⟩ ∧
    authenticateToken store (some none) secret now
      = .respond ⟨401, false, "Invalid token", []⟩ ∧
    (∀ tok2 : SignedToken, tok2.sig ≠ (secret, tok2.payload) →
      authenticateToken store (some (some tok2)) secret now
        = .respond ⟨401, false, "Invalid token", []⟩) := by
  refine ⟨?_, ?_, ?_⟩
  · simp [authenticateToken, jwtVerify, hsig, hexp, JwtError.name]
  · simp [authenticateToken, jwtVerify, JwtError.name]
  · intro tok2 h2
    simp [authenticateToken, jwtVerify, h2, JwtError.name]

/-- C3 witness: a concrete well-signed token whose expiry (100) has
passed (now = 200) answers "Token expired"; an unparseable token and a
wrongly-signed token answer "Invalid token". -/
theorem c3_witness :
    authenticateToken []
        (some (some ⟨⟨1, "a@x.com", "patient", 0, 100⟩,
          ("s", ⟨1, "a@x.com", "patient", 0, 100⟩)⟩)) "s" 200
      = .respond ⟨401, false, "Token expired", []⟩ ∧
    authenticateToken [] (some none) "s" 200
      = .respond ⟨401, false, "Invalid token", []⟩ ∧
    authenticateToken []
        (some (some ⟨⟨1, "a@x.com", "patient", 0, 100⟩,
          ("wrong", ⟨1, "a@x.com", "patient", 0, 100⟩)⟩)) "s" 200
      = .respond ⟨401, false, "Invalid token", []⟩ := by
  have h := c3_expired_vs_malformed []
    "s" 200 ⟨⟨1, "a@x.com", "patient", 0, 100⟩,
      ("s", ⟨1, "a@x.com", "patient", 0, 100⟩)⟩ rfl (by decide)
  exact ⟨h.1, h.2.1, h.2.2
    ⟨⟨1, "a@x.com", "patient", 0, 100⟩,
      ("wrong", ⟨1, "a@x.com", "patient", 0, 100⟩)⟩ (by decide)⟩

/-- C5: a token issued by `generateToken` verifies under the same
secret at any time before its expiry, and the verified payload's
userId, email and role are the user's values at issuance. -/
theorem c5_issue_verify_roundtrip (u : User) (secret : String)
    (now expiresIn later : Nat) (h : later < now + expiresIn) :
    jwtVerify (some (generateToken u secret now expiresIn)) secret later
      = .ok ⟨u.id, u.email, u.role, now, now + expiresIn⟩ := by
  simp [jwtVerify, generateToken, jwtSign, Nat.not_le_of_lt h]

/-- C5 witness: a concrete user's freshly issued token verifies and
yields the user's id, email and role. -/
theorem c5_witness :
    jwtVerify (some (generateToken
        ⟨1, "alice", "alice@x.com", bcryptHash "secret1" 0, "patient"⟩
        "s" 0 604800)) "s" 10
      = .ok ⟨1, "alice@x.com", "patient", 0, 0 + 604800⟩ :=
  c5_issue_verify_roundtrip
    ⟨1, "alice", "alice@x.com", bcryptHash "secret1" 0, "patient"⟩
    "s" 0 604800 10 (by decide)

/-- C2: on the protected pipeline the authorization decision is a
function of the role of the identity freshly loaded by `findByPk`, not
of the role embedded in the token payload: with a valid unexpired
token whose subject resolves to `u`, the request reaches the handler
iff `u.role` is in the allowed set, and replacing the token's embedded
role by any other value leaves the decision unchanged. -/
theorem c2_live_role_authoritative (store : List User) (secret : String)
    (now : Nat) (roles : List String) (payload : JwtPayload) (u : User)
    (hfind : findByPk store payload.userId = some u)
    (hexp : now < payload.exp) :
    (protectedRequest store (some (some (jwtSign payload secret)))
        secret now roles
      = (if roles.contains u.role then .inr u
         else .inl ⟨403, false, deniedMessage roles, []⟩)) ∧
    (∀ r2 : String,
      protectedRequest store (some (some (jwtSign
          ⟨payload.userId, payload.email, r2, payload.iat, payload.exp⟩
          secret))) secret now roles
        = protectedRequest store (some (some (jwtSign payload secret)))
            secret now roles) := by
  have hstep : ∀ pl : JwtPayload, pl.userId = payload.userId →
      pl.exp = payload.exp →
      protectedRequest store (some (some (jwtSign pl secret)))
          secret now roles
        = (if roles.contains u.role then .inr u
           else .inl ⟨403, false, deniedMessage roles, []⟩) := by
    intro pl hid he
    cases hc : roles.contains u.role <;> simp at hc <;>
      simp [protectedRequest, authenticateToken, jwtVerify, jwtSign, he,
        hid, Nat.not_le_of_lt hexp, hfind, requireRole, hc]
  exact ⟨hstep payload rfl rfl, fun r2 =>
    (hstep ⟨payload.userId, payload.email, r2, payload.iat, payload.exp⟩
      rfl rfl).trans (hstep payload rfl rfl).symm⟩

/-- C2 witness: the store holds the subject with live role "doctor"
while the token still embeds "patient"; against the admin-or-doctor
set the request is authorized — per the new live role. -/
theorem c2_witness :
    protectedRequest
        [⟨1, "alice", "a@x.com", bcryptHash "secret1" 0, "doctor"⟩]
        (some (some (jwtSign ⟨1, "a@x.com", "patient", 0, 100⟩ "s")))
        "s" 10 ["admin", "doctor"]
      = .inr ⟨1, "alice", "a@x.com", bcryptHash "secret1" 0, "doctor"⟩ := by
  have h := c2_live_role_authoritative
    [⟨1, "alice", "a@x.com", bcryptHash "secret1" 0, "doctor"⟩]
    "s" 10 ["admin", "doctor"] ⟨1, "a@x.com", "patient", 0, 100⟩
    ⟨1, "alice", "a@x.com", bcryptHash "secret1" 0, "doctor"⟩
    (by decide) (by decide)
  rw [h.1]
  decide

/-- C6: the login failure for a non-existent email and the failure for
an existing email with a wrong password are the same response — 401
with the generic "Invalid email or password" message and no token. -/
theorem c6_login_indistinguishable (store : List User)
    (e1 p1 e2 p2 secret : String) (now expiresIn : Nat) (u : User)
    (he1 : e1 ≠ "") (hp1 : p1 ≠ "") (he2 : e2 ≠ "") (hp2 : p2 ≠ "")
    (hnone : findOneByEmail store e1 = none)
    (hsome : findOneByEmail store e2 = some u)
    (hbad : validatePassword u p2 = false) :
    login store (some e1) (some p1) secret now expiresIn
      = login store (some e2) (some p2) secret now expiresIn ∧
    login store (some e1) (some p1) secret now expiresIn
      = ⟨401, false, "Invalid email or password", none⟩ := by
  have h1 : login store (some e1) (some p1) secret now expiresIn
      = ⟨401, false, "Invalid email or password", none⟩ := by
    simp [login, isTruthy, he1, hp1, hnone]
  have h2 : login store (some e2) (some p2) secret now expiresIn
      = ⟨401, false, "Invalid email or password", none⟩ := by
    simp [login, isTruthy, he2, hp2, hsome, hbad]
  exact ⟨h1.trans h2.symm, h1⟩

/-- C6 witness: a store holding only bob; logging in as a non-existent
email and as bob with a wrong password yield the identical 401. -/
theorem c6_witness :
    login [⟨1, "bob", "bob@x.com", bcryptHash "hunter22" 0, "patient"⟩]
        (some "nobody@x.com") (some "whatever1") "s" 0 604800
      = login [⟨1, "bob", "bob@x.com", bcryptHash "hunter22" 0, "patient"⟩]
          (some "bob@x.com") (some "wrongpass") "s" 0 604800 ∧
    login [⟨1, "bob", "bob@x.com", bcryptHash "hunter22" 0, "patient"⟩]
        (some "nobody@x.com") (some "whatever1") "s" 0 604800
      = ⟨401, false, "Invalid email or password", none⟩ :=
  c6_login_indistinguishable
    [⟨1, "bob", "bob@x.com", bcryptHash "hunter22" 0, "patient"⟩]
    "nobody@x.com" "whatever1" "bob@x.com" "wrongpass" "s" 0 604800
    ⟨1, "bob", "bob@x.com", bcryptHash "hunter22" 0, "patient"⟩
    (by decide) (by decide) (by decide) (by decide)
    (by decide) (by decide) (by decide)

/-- C8: a registration missing any required field (falsy username,
email or password) answers 400 before `User.create` runs — the create
flag is false and the store is unchanged; a registration whose email
is already in use (username fresh, fields valid) answers 400 with the
conflict message naming the email field, leaving the store unchanged. -/
theorem c8_register_guards (store : List User) (secret : String)
    (now expiresIn newId salt : Nat) :
    (∀ username email password role : Option String,
      (isTruthy username && isTruthy email && isTruthy password) = false →
      register store username email password role secret now expiresIn
          newId salt
        = ⟨⟨400, false, "Username, email, and password are required", []⟩,
           none, none, store, false⟩) ∧
    (∀ un em pw : String, ∀ role : Option String,
      un ≠ "" → em ≠ "" → pw ≠ "" →
      usernameLenOk un = true → isEmailFormat em = true →
      passwordLenOk pw = true → validRole (roleOrDefault role) = true →
      store.any (fun u => u.username == un) = false →
      store.any (fun u => u.email == em) = true →
      register store (some un) (some em) (some pw) role secret now
          expiresIn newId salt
        = ⟨⟨400, false, "email already exists", []⟩,
           none, none, store, true⟩) := by
  constructor
  · intro username email password role h
    simp [register, h]
  · intro un em pw role hun hem hpw h1 h2 h3 h4 h5 h6
    simp [register, isTruthy, hun, hem, hpw, userCreate,
      validationMessages, h1, h2, h3, h4, h5, h6]

/-- C8 witness: an empty-username request is refused with no create;
a request reusing bob's email is answered "email already exists". -/
theorem c8_witness :
    register [] (some "") (some "a@b.c") (some "secret1") none
        "s" 0 604800 1 0
      = ⟨⟨400, false, "Username, email, and password are required", []⟩,
         none, none, [], false⟩ ∧
    register [⟨1, "bob", "dup@x.com", bcryptHash "hunter22" 0, "patient"⟩]
        (some "alice") (some "dup@x.com") (some "secret1") none
        "s" 0 604800 2 0
      = ⟨⟨400, false, "email already exists", []⟩, none, none,
         [⟨1, "bob", "dup@x.com", bcryptHash "hunter22" 0, "patient"⟩],
         true⟩ :=
  ⟨(c8_register_guards [] "s" 0 604800 1 0).1
      (some "") (some "a@b.c") (some "secret1") none (by decide),
   (c8_register_guards
      [⟨1, "bob", "dup@x.com", bcryptHash "hunter22" 0, "patient"⟩]
      "s" 0 604800 2 0).2
      "alice" "dup@x.com" "secret1" none (by decide) (by decide)
      (by decide) (by decide) (by decide) (by decide) (by decide)
      (by decide) (by decide)⟩

/-- C10: a public registration carrying any role of the enumeration
(admin included) creates the identity with exactly that role and the
issued token embeds it; with the role field absent the created
identity's role is "patient". -/
theorem c10_role_passthrough (store : List User)
    (un em pw r secret : String) (now expiresIn newId salt : Nat)
    (hun : un ≠ "") (hem : em ≠ "") (hpw : pw ≠ "") (hrne : r ≠ "")
    (hr : validRole r = true)
    (h1 : usernameLenOk un = true) (h2 : isEmailFormat em = true)
    (h3 : passwordLenOk pw = true)
    (h5 : store.any (fun u => u.username == un) = false)
    (h6 : store.any (fun u => u.email == em) = false) :
    (register store (some un) (some em) (some pw) (some r) secret now
        expiresIn newId salt
      = ⟨⟨201, true, "User registered successfully", []⟩,
         some (generateToken ⟨newId, un, em, bcryptHash pw salt, r⟩
           secret now expiresIn),
         some ⟨newId, un, em, bcryptHash pw salt, r⟩,
         store ++ [⟨newId, un, em, bcryptHash pw salt, r⟩], true⟩) ∧
    (generateToken ⟨newId, un, em, bcryptHash pw salt, r⟩
        secret now expiresIn).payload.role = r ∧
    (register store (some un) (some em) (some pw) none secret now
        expiresIn newId salt
      = ⟨⟨201, true, "User registered successfully", []⟩,
         some (generateToken ⟨newId, un, em, bcryptHash pw salt, "patient"⟩
           secret now expiresIn),
         some ⟨newId, un, em, bcryptHash pw salt, "patient"⟩,
         store ++ [⟨newId, un, em, bcryptHash pw salt, "patient"⟩],
         true⟩) := by
  have hpat : validRole "patient" = true := by decide
  refine ⟨?_, rfl, ?_⟩
  · simp [register, isTruthy, hun, hem, hpw, roleOrDefault, hrne,
      userCreate, validationMessages, h1, h2, h3, hr, h5, h6]
  · simp [register, isTruthy, hun, hem, hpw, roleOrDefault,
      userCreate, validationMessages, h1, h2, h3, hpat, h5, h6]

/-- C10 witness: registering with role "admin" creates an admin whose
token embeds "admin"; the same request without a role creates a
patient. -/
theorem c10_witness :
    (register [] (some "alice") (some "a@x.com") (some "secret1")
        (some "admin") "s" 0 604800 1 0
      = ⟨⟨201, true, "User registered successfully", []⟩,
         some (generateToken
           ⟨1, "alice", "a@x.com", bcryptHash "secret1" 0, "admin"⟩
           "s" 0 604800),
         some ⟨1, "alice", "a@x.com", bcryptHash "secret1" 0, "admin"⟩,
         [⟨1, "alice", "a@x.com", bcryptHash "secret1" 0, "admin"⟩],
         true⟩) ∧
    (generateToken ⟨1, "alice", "a@x.com", bcryptHash "secret1" 0, "admin"⟩
        "s" 0 604800).payload.role = "admin" ∧
    (register [] (some "alice") (some "a@x.com") (some "secret1") none
        "s" 0 604800 1 0
      = ⟨⟨201, true, "User registered successfully", []⟩,
         some (generateToken
           ⟨1, "alice", "a@x.com", bcryptHash "secret1" 0, "patient"⟩
           "s" 0 604800),
         some ⟨1, "alice", "a@x.com", bcryptHash "secret1" 0, "patient"⟩,
         [⟨1, "alice", "a@x.com", bcryptHash "secret1" 0, "patient"⟩],
         true⟩) := by
  have h := c10_role_passthrough [] "alice" "a@x.com" "secret1" "admin"
    "s" 0 604800 1 0 (by decide) (by decide) (by decide) (by decide)
    (by decide) (by decide) (by decide) (by decide) (by decide) (by decide)
  simpa using h

end HealthcareAuth
